import Mathlib

/-!
Verification of the PE import-directory parser (Go package pe).

The Go source is embedded shallowly: uint32/uint64 arithmetic becomes Nat
arithmetic with explicit reduction modulo 2^32 / 2^64 at the operations that
can wrap; the immutable byte buffer becomes a list of byte values; Go slice
expressions, which abort the process when the requested range is out of
bounds, are modelled by a result type with an explicit out-of-range outcome;
unbounded Go loops are modelled with an explicit fuel parameter whose
exhaustion is a distinguished outcome.

The container-level helpers of the parser (RVA-to-offset translation, raw
byte reads, string reads, name validity checks) are not part of the sources
under study; following the specification they are modelled as abstract
function-valued fields of the file state (section 6 of the specification,
the Address Resolver interface).
-/

namespace PEImports

set_option maxRecDepth 4000

def pow32 : Nat := 2 ^ 32
def pow64 : Nat := 2 ^ 64

/-- uint32 addition (wraps modulo 2^32). -/
def add32 (a b : Nat) : Nat := (a + b) % pow32

/-- uint32 subtraction (wraps modulo 2^32). -/
def sub32 (a b : Nat) : Nat := (a % pow32 + pow32 - b % pow32) % pow32

/-- Go constant imageOrdinalFlag32. -/
def imageOrdinalFlag32 : Nat := 0x80000000

/-- Go constant imageOrdinalFlag64. -/
def imageOrdinalFlag64 : Nat := 0x8000000000000000

/-- Go constant maxRepeatedAddresses (declared in the source; see the claims
about the repeated-address ceiling for whether it is ever consulted). -/
def maxRepeatedAddresses : Nat := 16

/-- Go constant maxAddressSpread (64 MB). -/
def maxAddressSpread : Nat := 0x8000000

/-- Go constant addressMask32. -/
def addressMask32 : Nat := 0x7fffffff

/-- Go constant addressMask64. -/
def addressMask64 : Nat := 0x7fffffffffffffff

/-- ImageImportDescriptor: five little-endian uint32 fields, read verbatim
from the file. -/
structure ImageImportDescriptor where
  OriginalFirstThunk : Nat
  TimeDateStamp : Nat
  ForwarderChain : Nat
  Name : Nat
  FirstThunk : Nat
deriving DecidableEq

/-- The all-zero descriptor, the end-of-table sentinel. -/
def zeroDescriptor : ImageImportDescriptor := ⟨0, 0, 0, 0, 0⟩

/-- ImportFunction: one resolved import.  Default field values mirror the Go
zero value of the struct, from which the resolver starts. -/
structure ImportFunction where
  Name : String := ""
  Hint : Nat := 0
  Offset : Nat := 0
  ByOrdinal : Bool := false
  Ordinal : Nat := 0
  Address : Nat := 0
  Bound : Nat := 0
deriving DecidableEq

/-- Import: one resolved module of the import directory. -/
structure Import where
  Offset : Nat
  Name : String
  Functions : List ImportFunction
  Descriptor : ImageImportDescriptor
deriving DecidableEq

/-- The file state visible to the import parser.  `data` is the raw byte
buffer (each entry a byte value).  The remaining function fields model the
out-of-scope container helpers.

Modelled from the spec: `offsetOfRva` is the Address Resolver translation
`offset_of(rva) -> file_byte_offset` (the source helper getOffsetFromRva is
not among the sources under study); `stringAtRVA` is
`read_c_string_at_rva(rva) -> string` (source helper getStringAtRVA);
`isValidFunctionName` and `isValidDosFilename` are the name validity checks
(source helpers IsValidFunctionName, IsValidDosFilename).  They are abstract
functions: every theorem below holds for an arbitrary instantiation unless a
concrete one is given. -/
structure PEFile where
  data : List Nat
  Is64 : Bool
  imageBase : Nat
  offsetOfRva : Nat → Nat
  stringAtRVA : Nat → String
  isValidFunctionName : String → Bool
  isValidDosFilename : String → Bool

/-- Outcome of running a piece of the parser.  `ok` and `err` are the Go
return value / error return; `outOfRange` is a Go runtime abort from a slice
or index expression whose range check fails (not an error value the caller
can see); `fuelOut` is a model artifact marking exhaustion of loop fuel. -/
inductive PResult (α : Type) where
  | ok : α → PResult α
  | err : String → PResult α
  | outOfRange : PResult α
  | fuelOut : PResult α
deriving DecidableEq

/-- Go slice expression data[lo:hi]: defined when lo ≤ hi ≤ len(data),
otherwise the program aborts (modelled by `none`). -/
def goSlice (data : List Nat) (lo hi : Nat) : Option (List Nat) :=
  if lo ≤ hi ∧ hi ≤ data.length then some ((data.drop lo).take (hi - lo)) else none

/-- Little-endian value of a byte list (each entry taken modulo 256, the
byte width). -/
def leBytes : List Nat → Nat
  | [] => 0
  | b :: bs => b % 256 + 256 * leBytes bs

/-- Little-endian uint16 of the first two bytes. -/
def leU16 (bs : List Nat) : Nat := leBytes (bs.take 2)

/-- Little-endian uint32 of the first four bytes. -/
def leU32 (bs : List Nat) : Nat := leBytes (bs.take 4)

/-- Little-endian uint64 of the first eight bytes. -/
def leU64 (bs : List Nat) : Nat := leBytes (bs.take 8)

/-- One 4-byte thunk read of getImportTable32: slice pe.data[offset:offset+4]
(out of range aborts), then binary.Read of a uint32, which fails only when
the slice holds fewer than 4 bytes. -/
def readThunk32 (pe : PEFile) (rva : Nat) : PResult Nat :=
  let offset := pe.offsetOfRva rva % pow32
  match goSlice pe.data offset (add32 offset 4) with
  | none => .outOfRange
  | some s =>
    if s.length < 4 then .err "Error parsing the import table. Invalid data at RVA"
    else .ok (leU32 s)

/-- One 8-byte thunk read of getImportTable64. -/
def readThunk64 (pe : PEFile) (rva : Nat) : PResult Nat :=
  let offset := pe.offsetOfRva rva % pow32
  match goSlice pe.data offset (add32 offset 8) with
  | none => .outOfRange
  | some s =>
    if s.length < 8 then .err "Error parsing the import table. Invalid data at RVA"
    else .ok (leU64 s)

/-- The descriptor read of parseImportDirectory: slice
pe.data[fileOffset:fileOffset+size] (out of range aborts), then binary.Read
of the five uint32 fields, which fails when the slice holds fewer than 20
bytes. -/
def readDescriptor (pe : PEFile) (rva size : Nat) : PResult ImageImportDescriptor :=
  let fileOffset := pe.offsetOfRva rva % pow32
  match goSlice pe.data fileOffset (add32 fileOffset size) with
  | none => .outOfRange
  | some s =>
    if s.length < 20 then .err "descriptor read failed"
    else .ok ⟨leU32 s, leU32 (s.drop 4), leU32 (s.drop 8), leU32 (s.drop 12),
              leU32 (s.drop 16)⟩

/-- Modelled from the spec: the Address Resolver byte access
`read_bytes(offset, length) -> byte slice, fails if out of bounds` (the
source helper getData, not among the sources under study).  The rva is first
translated to a file offset; a read extending past the end of the buffer is
an error return, not an abort. -/
def PEFile.getData (pe : PEFile) (rva len : Nat) : Option (List Nat) :=
  let off := pe.offsetOfRva rva % pow32
  if off + len ≤ pe.data.length then some ((pe.data.drop off).take len) else none

/-- Loop body of getImportTable32.  State, in source order: remaining fuel,
current rva, minAddressOfData, maxAddressOfData, repeatedAddress, the set of
non-ordinal data addresses seen (as a list), and the collected entries in
reverse order.  The source also fills a map from rva to thunk that is never
read again; that dead map is omitted.  The loop state startRVA and maxLen
never change and are parameters. -/
def importTable32Loop (pe : PEFile) (startRVA maxLen : Nat) :
    Nat → Nat → Nat → Nat → Nat → List Nat → List Nat → PResult (List Nat)
  | 0, _, _, _, _, _, _ => .fuelOut
  | fuel + 1, rva, minA, maxA, repeated, seen, acc =>
    if rva ≥ add32 startRVA maxLen then
      .ok acc.reverse
    else if repeated ≥ maxAddressSpread then
      .err "bogus data found in imports"
    else if sub32 maxA minA > maxAddressSpread then
      .err "data addresses too spread out"
    else
      match readThunk32 pe rva with
      | .err e => .err e
      | .outOfRange => .outOfRange
      | .fuelOut => .fuelOut
      | .ok thunk =>
        if thunk = 0 then .ok acc.reverse
        else if thunk ≥ startRVA ∧ thunk ≤ rva then .ok acc.reverse
        else if thunk &&& imageOrdinalFlag32 > 0 then
          if thunk &&& 0x7fffffff > 0xffff then .err "beyond"
          else importTable32Loop pe startRVA maxLen fuel (add32 rva 4)
                 minA maxA repeated seen (thunk :: acc)
        else
          if seen.contains thunk then
            importTable32Loop pe startRVA maxLen fuel (add32 rva 4)
              minA maxA (repeated + 1) seen (thunk :: acc)
          else
            importTable32Loop pe startRVA maxLen fuel (add32 rva 4)
              minA maxA repeated (thunk :: seen) (thunk :: acc)

/-- getImportTable32: initial state per the source, with minAddressOfData
initialised to the all-ones uint32 and maxAddressOfData to zero. -/
def getImportTable32 (pe : PEFile) (rva maxLen fuel : Nat) : PResult (List Nat) :=
  importTable32Loop pe rva maxLen fuel rva (pow32 - 1) 0 0 [] []

/-- Loop body of getImportTable64; identical to the 32-bit loop except for
the 8-byte entry width, the 64-bit ordinal flag, and the literal mask
0x7fffffff the source applies in the ordinal plausibility check. -/
def importTable64Loop (pe : PEFile) (startRVA maxLen : Nat) :
    Nat → Nat → Nat → Nat → Nat → List Nat → List Nat → PResult (List Nat)
  | 0, _, _, _, _, _, _ => .fuelOut
  | fuel + 1, rva, minA, maxA, repeated, seen, acc =>
    if rva ≥ add32 startRVA maxLen then
      .ok acc.reverse
    else if repeated ≥ maxAddressSpread then
      .err "bogus data found in imports"
    else if sub32 maxA minA > maxAddressSpread then
      .err "data addresses too spread out"
    else
      match readThunk64 pe rva with
      | .err e => .err e
      | .outOfRange => .outOfRange
      | .fuelOut => .fuelOut
      | .ok thunk =>
        if thunk = 0 then .ok acc.reverse
        else if thunk ≥ startRVA ∧ thunk ≤ rva then .ok acc.reverse
        else if thunk &&& imageOrdinalFlag64 > 0 then
          if thunk &&& 0x7fffffff > 0xffff then .err "beyond"
          else importTable64Loop pe startRVA maxLen fuel (add32 rva 8)
                 minA maxA repeated seen (thunk :: acc)
        else
          if seen.contains thunk then
            importTable64Loop pe startRVA maxLen fuel (add32 rva 8)
              minA maxA (repeated + 1) seen (thunk :: acc)
          else
            importTable64Loop pe startRVA maxLen fuel (add32 rva 8)
              minA maxA repeated (thunk :: seen) (thunk :: acc)

/-- getImportTable64 with its initial state. -/
def getImportTable64 (pe : PEFile) (rva maxLen fuel : Nat) : PResult (List Nat) :=
  importTable64Loop pe rva maxLen fuel rva (pow32 - 1) 0 0 [] []

/-- First half of the loop body of parseImports32: decode one thunk value
into an ImportFunction (ordinal decode, or hint and name read through the
Address Resolver with sentinel substitution on an invalid name).  The Go
struct starts from its zero value; fields not assigned keep it. -/
def resolveEntry32 (pe : PEFile) (t : Nat) : PResult ImportFunction :=
  if t > 0 then
    if t &&& imageOrdinalFlag32 > 0 then
      .ok { ByOrdinal := true, Ordinal := t &&& 0xffff }
    else
      match pe.getData (t &&& addressMask32) 2 with
      | none => .err "getData failed"
      | some bytes =>
        .ok { ByOrdinal := false, Hint := leU16 bytes,
              Name :=
                (fun n => if pe.isValidFunctionName n then n
                          else "*invalid*") (pe.stringAtRVA (add32 t 2)),
              Offset := t }
  else .ok {}

/-- Second half of the loop body of parseImports32: the bound-address
comparison.  When both tables are non-empty the source indexes both at idx;
a Go index expression out of range aborts, modelled by `outOfRange`. -/
def boundStep32 (ilt iat : List Nat) (idx : Nat) (imp1 : ImportFunction) :
    PResult ImportFunction :=
  if 0 < iat.length ∧ 0 < ilt.length then
    match ilt.get? idx with
    | none => .outOfRange
    | some a =>
      match iat.get? idx with
      | none => .outOfRange
      | some b => .ok (if a ≠ b then { imp1 with Bound := b } else imp1)
  else .ok imp1

/-- Loop body of parseImports32 over the table of record (index loop).
State: remaining fuel (the caller supplies table length plus one, which
always suffices), idx, numInvalid, and the accepted functions in reverse
order.  The Go index expression table[idx] aborts when out of range,
modelled by `outOfRange`. -/
def resolveLoop32 (pe : PEFile) (d : ImageImportDescriptor)
    (ilt iat table : List Nat) :
    Nat → Nat → Nat → List ImportFunction → PResult (List ImportFunction)
  | 0, _, _, _ => .fuelOut
  | fuel + 1, idx, numInvalid, acc =>
    if idx < table.length then
      match table.get? idx with
      | none => .outOfRange
      | some t =>
        match resolveEntry32 pe t with
        | .err e => .err e
        | .outOfRange => .outOfRange
        | .fuelOut => .fuelOut
        | .ok imp0 =>
          match boundStep32 ilt iat idx
              { imp0 with
                Address := add32 (add32 d.FirstThunk pe.imageBase)
                  (idx * 4 % pow32) } with
          | .err e => .err e
          | .outOfRange => .outOfRange
          | .fuelOut => .fuelOut
          | .ok imp =>
            if imp.Ordinal = 0 ∧ ¬ 0 < imp.Name.length then
              .err "Must have either an ordinal or a name in an import"
            else if imp.Name = "*invalid*" then
              if numInvalid > 1000 ∧ numInvalid = idx then
                .err "Too many invalid names, aborting parsing"
              else resolveLoop32 pe d ilt iat table fuel (idx + 1) (numInvalid + 1) acc
            else
              resolveLoop32 pe d ilt iat table fuel (idx + 1) numInvalid
                (if imp.Ordinal > 0 ∨ 0 < imp.Name.length then imp :: acc else acc)
    else .ok acc.reverse

/-- parseImports32: read the lookup table and the address table with the same
maxLen, reject the case of both empty, pick the table of record, run the
index loop. -/
def parseImports32 (pe : PEFile) (d : ImageImportDescriptor)
    (maxLen tableFuel : Nat) : PResult (List ImportFunction) :=
  match getImportTable32 pe d.OriginalFirstThunk maxLen tableFuel with
  | .err e => .err e
  | .outOfRange => .outOfRange
  | .fuelOut => .fuelOut
  | .ok ilt =>
    match getImportTable32 pe d.FirstThunk maxLen tableFuel with
    | .err e => .err e
    | .outOfRange => .outOfRange
    | .fuelOut => .fuelOut
    | .ok iat =>
      if iat.length = 0 ∧ ilt.length = 0 then
        .err "Damaged Import Table information. ILT and/or IAT appear to be broken"
      else if ilt.length > 0 then
        resolveLoop32 pe d ilt iat ilt (ilt.length + 1) 0 0 []
      else if iat.length > 0 then
        resolveLoop32 pe d ilt iat iat (iat.length + 1) 0 0 []
      else .ok []

/-- First half of the loop body of parseImports64; as the 32-bit entry
decode but with the 64-bit ordinal flag and the uint32 truncations the
source applies to the 64-bit thunk values (ordinal, getData argument,
string rva, offset). -/
def resolveEntry64 (pe : PEFile) (t : Nat) : PResult ImportFunction :=
  if t > 0 then
    if t &&& imageOrdinalFlag64 > 0 then
      .ok { ByOrdinal := true, Ordinal := t % pow32 &&& 0xffff }
    else
      match pe.getData ((t &&& addressMask64) % pow32) 2 with
      | none => .err "getData failed"
      | some bytes =>
        .ok { ByOrdinal := false, Hint := leU16 bytes,
              Name :=
                (fun n => if pe.isValidFunctionName n then n
                          else "*invalid*") (pe.stringAtRVA ((t + 2) % pow64 % pow32)),
              Offset := t % pow32 }
  else .ok {}

/-- Second half of the loop body of parseImports64: the bound-address
comparison, with the uint32 truncation of the recorded bound value. -/
def boundStep64 (ilt iat : List Nat) (idx : Nat) (imp1 : ImportFunction) :
    PResult ImportFunction :=
  if 0 < iat.length ∧ 0 < ilt.length then
    match ilt.get? idx with
    | none => .outOfRange
    | some a =>
      match iat.get? idx with
      | none => .outOfRange
      | some b => .ok (if a ≠ b then { imp1 with Bound := b % pow32 } else imp1)
  else .ok imp1

/-- Loop body of parseImports64. -/
def resolveLoop64 (pe : PEFile) (d : ImageImportDescriptor)
    (ilt iat table : List Nat) :
    Nat → Nat → Nat → List ImportFunction → PResult (List ImportFunction)
  | 0, _, _, _ => .fuelOut
  | fuel + 1, idx, numInvalid, acc =>
    if idx < table.length then
      match table.get? idx with
      | none => .outOfRange
      | some t =>
        match resolveEntry64 pe t with
        | .err e => .err e
        | .outOfRange => .outOfRange
        | .fuelOut => .fuelOut
        | .ok imp0 =>
          match boundStep64 ilt iat idx
              { imp0 with
                Address := add32 (add32 d.FirstThunk pe.imageBase)
                  (idx * 8 % pow32) } with
          | .err e => .err e
          | .outOfRange => .outOfRange
          | .fuelOut => .fuelOut
          | .ok imp =>
            if imp.Ordinal = 0 ∧ ¬ 0 < imp.Name.length then
              .err "Must have either an ordinal or a name in an import"
            else if imp.Name = "*invalid*" then
              if numInvalid > 1000 ∧ numInvalid = idx then
                .err "Too many invalid names, aborting parsing"
              else resolveLoop64 pe d ilt iat table fuel (idx + 1) (numInvalid + 1) acc
            else
              resolveLoop64 pe d ilt iat table fuel (idx + 1) numInvalid
                (if imp.Ordinal > 0 ∨ 0 < imp.Name.length then imp :: acc else acc)
    else .ok acc.reverse

/-- parseImports64. -/
def parseImports64 (pe : PEFile) (d : ImageImportDescriptor)
    (maxLen tableFuel : Nat) : PResult (List ImportFunction) :=
  match getImportTable64 pe d.OriginalFirstThunk maxLen tableFuel with
  | .err e => .err e
  | .outOfRange => .outOfRange
  | .fuelOut => .fuelOut
  | .ok ilt =>
    match getImportTable64 pe d.FirstThunk maxLen tableFuel with
    | .err e => .err e
    | .outOfRange => .outOfRange
    | .fuelOut => .fuelOut
    | .ok iat =>
      if iat.length = 0 ∧ ilt.length = 0 then
        .err "Damaged Import Table information. ILT and/or IAT appear to be broken"
      else if ilt.length > 0 then
        resolveLoop64 pe d ilt iat ilt (ilt.length + 1) 0 0 []
      else if iat.length > 0 then
        resolveLoop64 pe d ilt iat iat (iat.length + 1) 0 0 []
      else .ok []

/-- The maxLen computation of parseImportDirectory, performed after the
cursor has been advanced past the descriptor: the rest of the file from the
descriptor file offset (uint32 subtraction), overridden by
Max(rva-OriginalFirstThunk, rva-FirstThunk) (uint32 subtractions, which wrap)
whenever the advanced cursor exceeds either thunk-table rva. -/
def thunkMaxLen (pe : PEFile) (rvaAfter fileOffset : Nat)
    (d : ImageImportDescriptor) : Nat :=
  if rvaAfter > d.OriginalFirstThunk ∨ rvaAfter > d.FirstThunk then
    max (sub32 rvaAfter d.OriginalFirstThunk) (sub32 rvaAfter d.FirstThunk)
  else sub32 pe.data.length fileOffset

/-- Loop body of parseImportDirectory.  State: remaining fuel, cursor rva,
and the accumulated imports in reverse order.  `size` is the directory size
argument, used only as the byte length of each descriptor slice; `tableFuel`
is the fuel handed to the nested thunk-table reads. -/
def parseImportDirectoryLoop (pe : PEFile) (size tableFuel : Nat) :
    Nat → Nat → List Import → PResult (List Import)
  | 0, _, _ => .fuelOut
  | fuel + 1, rva, acc =>
    let fileOffset := pe.offsetOfRva rva % pow32
    match readDescriptor pe rva size with
    | .err e => .err e
    | .outOfRange => .outOfRange
    | .fuelOut => .fuelOut
    | .ok d =>
      if d = zeroDescriptor then .ok acc.reverse
      else
        let rva2 := add32 rva 20
        let maxLen := thunkMaxLen pe rva2 fileOffset d
        match (if pe.Is64 then parseImports64 pe d maxLen tableFuel
               else parseImports32 pe d maxLen tableFuel) with
        | .err e => .err e
        | .outOfRange => .outOfRange
        | .fuelOut => .fuelOut
        | .ok funcs =>
          let dllName := pe.stringAtRVA d.Name
          if ¬ pe.isValidDosFilename dllName then
            parseImportDirectoryLoop pe size tableFuel fuel rva2 acc
          else
            parseImportDirectoryLoop pe size tableFuel fuel rva2
              ({ Offset := fileOffset, Name := dllName, Functions := funcs,
                 Descriptor := d } :: acc)

/-- parseImportDirectory: walk the descriptor array from the directory rva,
collecting one Import per descriptor with a valid module name. -/
def parseImportDirectory (pe : PEFile) (rva size fuel tableFuel : Nat) :
    PResult (List Import) :=
  parseImportDirectoryLoop pe size tableFuel fuel rva []

/-- Modelled from the spec (section 4.1): the per-table max_length
derivation the specification describes — if the thunk-table start lies at or
after the descriptor-stream cursor the bound is the rest of the file, if it
lies before the cursor the bound is the distance from the table start back
to the cursor.  This definition follows the words of the specification and
is compared against `thunkMaxLen`, the derivation embedded from the
source. -/
def specThunkMaxLen (dataLen fileOffset cursor tableRva : Nat) : Nat :=
  if tableRva ≥ cursor then dataLen - fileOffset else cursor - tableRva

/-! ## Concrete files used by the claims -/

/-- A file whose thunk table holds 20 identical non-ordinal data addresses
(value 0x1000) followed by a zero terminator; identity rva translation. -/
def pe1 : PEFile := {
  data := (List.replicate 20 [0x00, 0x10, 0, 0]).flatten ++ [0, 0, 0, 0]
  Is64 := false, imageBase := 0
  offsetOfRva := fun r => r
  stringAtRVA := fun _ => "s"
  isValidFunctionName := fun _ => true
  isValidDosFilename := fun _ => true }

/-- A file whose thunk table holds the two non-ordinal data addresses 0x1000
and 0x9000000 (difference 150990848 bytes, beyond the 64 MiB ceiling
0x8000000 = 67108864) followed by a zero terminator. -/
def pe2 : PEFile := {
  data := [0x00, 0x10, 0, 0] ++ [0, 0, 0, 0x09] ++ [0, 0, 0, 0]
  Is64 := false, imageBase := 0
  offsetOfRva := fun r => r
  stringAtRVA := fun _ => "s"
  isValidFunctionName := fun _ => true
  isValidDosFilename := fun _ => true }

/-- A file for the invalid-name claims: every rva translates to offset 0,
where the non-ordinal thunk value 0x2000 sits, so a thunk table of any
requested length can be read from a 4-byte buffer; every function name read
fails the validity check. -/
def pe3 : PEFile := {
  data := [0x00, 0x20, 0, 0]
  Is64 := false, imageBase := 0
  offsetOfRva := fun _ => 0
  stringAtRVA := fun _ => "bad"
  isValidFunctionName := fun _ => false
  isValidDosFilename := fun _ => true }

/-- A file whose thunk table holds a valid-name entry, an invalid-name
entry, a second valid-name entry and the zero terminator: the names read at
the hint-structure rvas of the first and third entries pass the validity
check, the middle one does not. -/
def pe3m : PEFile := {
  data := [0, 0x30, 0, 0, 0, 0x20, 0, 0, 4, 0x30, 0, 0, 0, 0, 0, 0]
  Is64 := false, imageBase := 0
  offsetOfRva := fun r => if r < 16 then r else 0
  stringAtRVA := fun r => if r = 0x3002 ∨ r = 0x3006 then "A" else "B"
  isValidFunctionName := fun s => s == "A"
  isValidDosFilename := fun _ => true }

/-- The descriptor whose lookup-table and address-table rvas are both 0. -/
def d0 : ImageImportDescriptor := ⟨0, 0, 0, 0, 0⟩

/-- A 10-byte file: any 20-byte descriptor read from it is out of range. -/
def pe4c : PEFile := {
  data := List.replicate 10 0
  Is64 := false, imageBase := 0
  offsetOfRva := fun r => r
  stringAtRVA := fun _ => "s"
  isValidFunctionName := fun _ => true
  isValidDosFilename := fun _ => true }

/-- A 64-bit file whose thunk table holds the single entry
0x8000000100000000 (ordinal flag set, low 63 bits equal to 2^32) followed by
a zero terminator. -/
def pe5 : PEFile := {
  data := [0, 0, 0, 0, 1, 0, 0, 0x80] ++ List.replicate 8 0
  Is64 := true, imageBase := 0
  offsetOfRva := fun r => r
  stringAtRVA := fun _ => "s"
  isValidFunctionName := fun _ => true
  isValidDosFilename := fun _ => true }

/-- A file on which the descriptor walk never terminates: every descriptor
read (at the walk rvas, which are congruent to 2 modulo 4) translates to
offset 0 and yields the same non-terminal descriptor with both thunk-table
rvas 0; rva 0 translates to the single ordinal thunk at offset 20 and rva 4
to the zero terminator at offset 24, so both thunk tables read as one valid
ordinal entry; the module name never passes the validity check, so the walk
skips the module and continues forever. -/
def pe6 : PEFile := {
  data := [0, 0, 0, 0, 1, 0, 0, 0, 0, 0, 0, 0, 0, 0, 0, 0, 0, 0, 0, 0,
           1, 0, 0, 0x80, 0, 0, 0, 0]
  Is64 := false, imageBase := 0
  offsetOfRva := fun r => if r = 0 then 20 else if r = 4 then 24 else 0
  stringAtRVA := fun _ => "m"
  isValidFunctionName := fun _ => true
  isValidDosFilename := fun _ => false }

/-- The descriptor read from pe6 at every walk position. -/
def d6 : ImageImportDescriptor := ⟨0, 1, 0, 0, 0⟩

/-- A file holding one self-referential thunk: the 4 bytes at offset 8
encode the value 8, equal to the rva they are read from. -/
def pe6w : PEFile := {
  data := [0, 0, 0, 0, 0, 0, 0, 0, 8, 0, 0, 0]
  Is64 := false, imageBase := 0
  offsetOfRva := fun r => r
  stringAtRVA := fun _ => "s"
  isValidFunctionName := fun _ => true
  isValidDosFilename := fun _ => true }

/-- A 300-byte file for the max-length derivation claim. -/
def pe7 : PEFile := {
  data := List.replicate 300 0
  Is64 := false, imageBase := 0
  offsetOfRva := fun r => r
  stringAtRVA := fun _ => "s"
  isValidFunctionName := fun _ => true
  isValidDosFilename := fun _ => true }

/-- A descriptor whose lookup table (rva 50) lies before the cursor (100)
and whose address table (rva 200) lies after it. -/
def d7 : ImageImportDescriptor := ⟨50, 0, 0, 0, 200⟩

/-- A 20-byte all-zero file: the descriptor read at rva 0 is the
end-of-table sentinel. -/
def pe8 : PEFile := {
  data := List.replicate 20 0
  Is64 := false, imageBase := 0
  offsetOfRva := fun r => r
  stringAtRVA := fun _ => "s"
  isValidFunctionName := fun _ => true
  isValidDosFilename := fun _ => true }

/-- A file whose lookup table (rva 0) holds two ordinal entries and whose
address table (rva 12) holds one: the two tables terminate at different
points, making the address table shorter than the table of record. -/
def pe9 : PEFile := {
  data := [2, 0, 0, 0x80, 3, 0, 0, 0x80, 0, 0, 0, 0, 2, 0, 0, 0x80, 0, 0, 0, 0]
  Is64 := false, imageBase := 0x400000
  offsetOfRva := fun r => r
  stringAtRVA := fun _ => "s"
  isValidFunctionName := fun _ => true
  isValidDosFilename := fun _ => true }

/-- The descriptor of pe9: lookup table at rva 0, address table at rva 12. -/
def d9 : ImageImportDescriptor := ⟨0, 0, 0, 0, 12⟩

/-- A 32-bit file whose thunk table starts with the entry 0x80010000
(ordinal flag set, low 31 bits 0x10000, beyond 0xffff). -/
def pe32a : PEFile := {
  data := [0, 0, 1, 0x80, 0, 0, 0, 0]
  Is64 := false, imageBase := 0
  offsetOfRva := fun r => r
  stringAtRVA := fun _ => "s"
  isValidFunctionName := fun _ => true
  isValidDosFilename := fun _ => true }

/-- A 64-bit file whose thunk table starts with the entry
0x8000000000010000 (ordinal flag set, low 31 bits 0x10000). -/
def pe64a : PEFile := {
  data := [0, 0, 1, 0, 0, 0, 0, 0x80] ++ List.replicate 8 0
  Is64 := true, imageBase := 0
  offsetOfRva := fun r => r
  stringAtRVA := fun _ => "s"
  isValidFunctionName := fun _ => true
  isValidDosFilename := fun _ => true }

/-- A 32-bit file whose thunk table holds 0x80000007 (ordinal 7) followed by
the zero terminator. -/
def pe32b : PEFile := {
  data := [7, 0, 0, 0x80, 0, 0, 0, 0]
  Is64 := false, imageBase := 0
  offsetOfRva := fun r => r
  stringAtRVA := fun _ => "s"
  isValidFunctionName := fun _ => true
  isValidDosFilename := fun _ => true }

/-- A file holding three descriptors at rvas 0, 20 and 40 (the third the
all-zero sentinel), each non-terminal descriptor pointing at a one-entry
ordinal thunk table (rvas 60 and 68) and at a module name rva (100, 101)
whose string passes the validity check. -/
def pe10 : PEFile := {
  data := [60, 0, 0, 0, 0, 0, 0, 0, 0, 0, 0, 0, 100, 0, 0, 0, 60, 0, 0, 0]
       ++ [68, 0, 0, 0, 0, 0, 0, 0, 0, 0, 0, 0, 101, 0, 0, 0, 68, 0, 0, 0]
       ++ List.replicate 20 0
       ++ [2, 0, 0, 0x80, 0, 0, 0, 0, 3, 0, 0, 0x80, 0, 0, 0, 0, 0, 0, 0, 0]
  Is64 := false, imageBase := 0x400000
  offsetOfRva := fun r => r
  stringAtRVA := fun r => if r = 100 then "a.dll" else if r = 101 then "b.dll" else "f"
  isValidFunctionName := fun _ => true
  isValidDosFilename := fun s => s == "a.dll" || s == "b.dll" }

/-- The first descriptor of pe10. -/
def dA : ImageImportDescriptor := ⟨60, 0, 0, 100, 60⟩

/-- The second descriptor of pe10. -/
def dB : ImageImportDescriptor := ⟨68, 0, 0, 101, 68⟩

/-- The resolved function of the first pe10 module (ordinal 2; the loaded
address estimate is FirstThunk 60 + image base 0x400000). -/
def fA : ImportFunction := { ByOrdinal := true, Ordinal := 2, Address := 0x40003C }

/-- The resolved function of the second pe10 module (ordinal 3). -/
def fB : ImportFunction := { ByOrdinal := true, Ordinal := 3, Address := 0x400044 }

/-- The first resolved module of pe10. -/
def importA : Import :=
  { Offset := 0, Name := "a.dll", Functions := [fA], Descriptor := dA }

/-- The second resolved module of pe10. -/
def importB : Import :=
  { Offset := 20, Name := "b.dll", Functions := [fB], Descriptor := dB }

/-! ## Helper lemmas -/

theorem get?_replicate_of_lt {α : Type} (a : α) : ∀ {n i : Nat}, i < n →
    (List.replicate n a).get? i = some a := by
  intro n
  induction n with
  | zero => intro i h; omega
  | succ k ih =>
    intro i h
    cases i with
    | zero => simp [List.replicate_succ]
    | succ j => simpa [List.replicate_succ] using ih (by omega)

/-- Every thunk read of pe3 yields the value 0x2000, because every rva
translates to offset 0. -/
theorem pe3_read (rva : Nat) : readThunk32 pe3 rva = .ok 0x2000 := rfl

/-- The table loop of pe3 after its first iteration: with 0x2000 already in
the seen set, each further iteration counts one repeat and collects one
entry until the length bound M ends the loop with no error. -/
theorem pe3_table_loop (M : Nat) (hM : M ≤ 8192) :
    ∀ n fuel rva rep acc, rva + 4 * n = M → n + 1 ≤ fuel → rep + n ≤ 2000 →
    importTable32Loop pe3 0 M fuel rva (pow32 - 1) 0 rep [0x2000] acc =
      .ok (acc.reverse ++ List.replicate n 0x2000) := by
  have h0 : add32 0 M = M := by
    simp only [add32, pow32]
    omega
  intro n
  induction n with
  | zero =>
    intro fuel rva rep acc h1 h2 h3
    obtain ⟨f, rfl⟩ : ∃ f, fuel = f + 1 := ⟨fuel - 1, by omega⟩
    simp only [importTable32Loop, h0]
    rw [if_pos (by omega : rva ≥ M)]
    simp
  | succ k ih =>
    intro fuel rva rep acc h1 h2 h3
    obtain ⟨f, rfl⟩ : ∃ f, fuel = f + 1 := ⟨fuel - 1, by omega⟩
    have hrep : ¬ rep ≥ maxAddressSpread := by
      simp only [maxAddressSpread]
      omega
    have hovl : ¬ (0x2000 ≥ 0 ∧ 0x2000 ≤ rva) := by
      rintro ⟨-, hh⟩
      omega
    have ha4 : add32 rva 4 = rva + 4 := by
      simp only [add32, pow32]
      omega
    simp only [importTable32Loop, h0, pe3_read, ha4]
    rw [if_neg (by omega : ¬ rva ≥ M)]
    rw [if_neg hrep]
    rw [if_neg (by decide : ¬ sub32 0 (pow32 - 1) > maxAddressSpread)]
    rw [if_neg (by decide : ¬ (0x2000 : Nat) = 0)]
    rw [if_neg hovl]
    rw [if_neg (by decide : ¬ (0x2000 : Nat) &&& imageOrdinalFlag32 > 0)]
    rw [if_pos (by decide : ([0x2000] : List Nat).contains 0x2000 = true)]
    rw [ih f (rva + 4) (rep + 1) (0x2000 :: acc) (by omega) (by omega) (by omega)]
    simp [List.replicate_succ]

/-- A full table read of pe3: M bytes of table yield M / 4 identical entries
and no error, the repeats never reaching the ceiling the source actually
compares against. -/
theorem pe3_table_gen (M n f : Nat) (hM : M ≤ 8192) (h1 : 4 + 4 * n = M)
    (h2 : n + 1 ≤ f) (h3 : n ≤ 2000) :
    getImportTable32 pe3 0 M (f + 1) = .ok (List.replicate (n + 1) 0x2000) := by
  have h0 : add32 0 M = M := by
    simp only [add32, pow32]
    omega
  have ha4 : add32 0 4 = 4 := by decide
  simp only [getImportTable32, importTable32Loop, h0, ha4, pe3_read]
  rw [if_neg (by omega : ¬ 0 ≥ M)]
  rw [if_neg (by decide : ¬ (0 : Nat) ≥ maxAddressSpread)]
  rw [if_neg (by decide : ¬ sub32 0 (pow32 - 1) > maxAddressSpread)]
  rw [if_neg (by decide : ¬ (0x2000 : Nat) = 0)]
  rw [if_neg (by omega : ¬ ((0x2000 : Nat) ≥ 0 ∧ (0x2000 : Nat) ≤ 0))]
  rw [if_neg (by decide : ¬ (0x2000 : Nat) &&& imageOrdinalFlag32 > 0)]
  rw [if_neg (by decide : ¬ ([] : List Nat).contains 0x2000 = true)]
  rw [pe3_table_loop M hM n f 4 0 [0x2000] (by omega) (by omega) (by omega)]
  simp [List.replicate_succ]

theorem pe3_table_4004 : getImportTable32 pe3 0 4004 1010 =
    .ok (List.replicate 1001 0x2000) :=
  pe3_table_gen 4004 1000 1009 (by omega) (by omega) (by omega) (by omega)

theorem pe3_table_4008 : getImportTable32 pe3 0 4008 1010 =
    .ok (List.replicate 1002 0x2000) :=
  pe3_table_gen 4008 1001 1009 (by omega) (by omega) (by omega) (by omega)

/-- Decoding the pe3 thunk value: a non-ordinal entry whose name fails the
validity check and is replaced by the invalid sentinel. -/
theorem pe3_entry : resolveEntry32 pe3 0x2000 =
    .ok { ByOrdinal := false, Hint := 0x2000, Name := "*invalid*",
          Offset := 0x2000 } := by decide

theorem pe3_bound (N idx : Nat) (h : idx < N) (imp1 : ImportFunction) :
    boundStep32 (List.replicate N 0x2000) (List.replicate N 0x2000) idx imp1 =
      .ok imp1 := by
  simp only [boundStep32, get?_replicate_of_lt _ h]
  rw [if_pos (by simp; omega)]
  simp

/-- Resolving a table of N identical invalid-name entries with
numInvalid = idx maintained: while N ≤ 1001 the abort condition
numInvalid > 1000 never fires and every entry is skipped. -/
theorem pe3_resolve_ok (N : Nat) (hN : N ≤ 1001) :
    ∀ n f idx acc, idx + n = N → n + 1 ≤ f →
    resolveLoop32 pe3 d0 (List.replicate N 0x2000) (List.replicate N 0x2000)
      (List.replicate N 0x2000) f idx idx acc = .ok acc.reverse := by
  intro n
  induction n with
  | zero =>
    intro f idx acc h1 h2
    obtain ⟨g, rfl⟩ : ∃ g, f = g + 1 := ⟨f - 1, by omega⟩
    simp only [resolveLoop32]
    rw [if_neg (by simp only [List.length_replicate]; omega)]
  | succ k ih =>
    intro f idx acc h1 h2
    obtain ⟨g, rfl⟩ : ∃ g, f = g + 1 := ⟨f - 1, by omega⟩
    have hlt : idx < N := by omega
    simp only [resolveLoop32, get?_replicate_of_lt _ hlt, pe3_entry,
      pe3_bound N idx hlt]
    rw [if_pos (by simp only [List.length_replicate]; omega)]
    rw [if_neg (by decide : ¬ (True ∧ ¬ 0 < "*invalid*".length))]
    rw [if_pos trivial]
    rw [if_neg (fun h => absurd h.1 (by omega))]
    exact ih g (idx + 1) acc (by omega) (by omega)

/-- Resolving a table of 1002 identical invalid-name entries: at index 1001
with numInvalid 1001 the abort condition fires. -/
theorem pe3_resolve_err :
    ∀ n f idx acc, idx + n = 1001 → n + 1 ≤ f →
    resolveLoop32 pe3 d0 (List.replicate 1002 0x2000) (List.replicate 1002 0x2000)
      (List.replicate 1002 0x2000) f idx idx acc =
      .err "Too many invalid names, aborting parsing" := by
  intro n
  induction n with
  | zero =>
    intro f idx acc h1 h2
    obtain ⟨g, rfl⟩ : ∃ g, f = g + 1 := ⟨f - 1, by omega⟩
    have hlt : idx < 1002 := by omega
    simp only [resolveLoop32, get?_replicate_of_lt _ hlt, pe3_entry,
      pe3_bound 1002 idx hlt]
    rw [if_pos (by simp only [List.length_replicate]; omega)]
    rw [if_neg (by decide : ¬ (True ∧ ¬ 0 < "*invalid*".length))]
    rw [if_pos trivial]
    rw [if_pos ⟨by omega, trivial⟩]
  | succ k ih =>
    intro f idx acc h1 h2
    obtain ⟨g, rfl⟩ : ∃ g, f = g + 1 := ⟨f - 1, by omega⟩
    have hlt : idx < 1002 := by omega
    simp only [resolveLoop32, get?_replicate_of_lt _ hlt, pe3_entry,
      pe3_bound 1002 idx hlt]
    rw [if_pos (by simp only [List.length_replicate]; omega)]
    rw [if_neg (by decide : ¬ (True ∧ ¬ 0 < "*invalid*".length))]
    rw [if_pos trivial]
    rw [if_neg (fun h => absurd h.1 (by omega))]
    exact ih g (idx + 1) acc (by omega) (by omega)

/-- The thunk table of pe6 read from rva 0 with any length bound congruent
to 2 modulo 4: one ordinal entry, ended by the zero terminator or by the
bound. -/
theorem pe6_table (c : Nat) (h4 : c % 4 = 2) (hlt : c < pow32) :
    getImportTable32 pe6 0 c 3 = .ok [0x80000001] := by
  have h2 : 2 ≤ c := by omega
  have h0 : add32 0 c = c := by simp [add32, Nat.mod_eq_of_lt hlt]
  have hc : c = 2 ∨ 6 ≤ c := by omega
  have hrt0 : readThunk32 pe6 0 = .ok 0x80000001 := by decide
  have hrt4 : readThunk32 pe6 4 = .ok 0 := by decide
  have ha4 : add32 0 4 = 4 := by decide
  simp only [getImportTable32, importTable32Loop, h0, ha4, hrt0, hrt4]
  rw [if_neg (by omega)]
  rw [if_neg (by decide)]
  rw [if_neg (by decide)]
  rw [if_neg (by decide)]
  rw [if_neg (by decide)]
  rw [if_pos (by decide)]
  rw [if_neg (by decide)]
  rcases hc with hc | hc
  · subst hc
    rw [if_pos (by omega)]
    simp
  · rw [if_neg (by omega)]
    rw [if_neg (by decide)]
    rw [if_neg (by decide)]
    simp

theorem pe6_resolve :
    resolveLoop32 pe6 d6 [0x80000001] [0x80000001] [0x80000001] 2 0 0 [] =
      .ok [{ ByOrdinal := true, Ordinal := 1, Address := 0 }] := by decide

theorem pe6_imports (c : Nat) (h4 : c % 4 = 2) (hlt : c < pow32) :
    parseImports32 pe6 d6 c 3 =
      .ok [{ ByOrdinal := true, Ordinal := 1, Address := 0 }] := by
  have ht : getImportTable32 pe6 0 c 3 = .ok [0x80000001] := pe6_table c h4 hlt
  simp only [parseImports32, d6, ht]
  rw [if_neg (by simp)]
  rw [if_pos (by simp)]
  exact pe6_resolve

theorem pe6_desc (rva : Nat) (h0 : rva ≠ 0) (h4 : rva ≠ 4) :
    readDescriptor pe6 rva 20 = .ok d6 := by
  have ho : pe6.offsetOfRva rva = 0 := by
    simp only [pe6]
    rw [if_neg h0, if_neg h4]
  simp only [readDescriptor, ho]
  decide

/-- The descriptor walk of pe6: from any rva congruent to 2 modulo 4 the
loop consumes all its fuel without returning — each iteration reads the same
non-terminal descriptor, parses the same one-entry table, rejects the module
name and continues at rva + 20, which has the same residue. -/
theorem pe6_walk (fuel : Nat) : ∀ (rva : Nat) (acc : List Import),
    rva % 4 = 2 → parseImportDirectoryLoop pe6 20 3 fuel rva acc = .fuelOut := by
  induction fuel with
  | zero => intro rva acc h; simp [parseImportDirectoryLoop]
  | succ n ih =>
    intro rva acc h
    have hd : readDescriptor pe6 rva 20 = .ok d6 :=
      pe6_desc rva (by omega) (by omega)
    have hc2 : add32 rva 20 % 4 = 2 := by
      simp only [add32, pow32]
      omega
    have hclt : add32 rva 20 < pow32 := by
      simp only [add32, pow32]
      omega
    have hm : thunkMaxLen pe6 (add32 rva 20) (pe6.offsetOfRva rva % pow32) d6 =
        add32 rva 20 := by
      simp only [thunkMaxLen, d6]
      rw [if_pos (Or.inl (by omega))]
      simp only [sub32, Nat.mod_eq_of_lt hclt]
      simp [pow32] at *
      omega
    have hp : parseImports32 pe6 d6 (add32 rva 20) 3 =
        .ok [{ ByOrdinal := true, Ordinal := 1, Address := 0 }] :=
      pe6_imports _ hc2 hclt
    have hz : ¬ (d6 = zeroDescriptor) := by decide
    have hIs : pe6.Is64 = false := rfl
    have hname : pe6.isValidDosFilename (pe6.stringAtRVA d6.Name) = false := rfl
    simp only [parseImportDirectoryLoop, hd, hm, hIs, hp, hname]
    rw [if_neg hz]
    simp only [Bool.false_eq_true, if_false, not_false_eq_true, if_true]
    exact ih (add32 rva 20) acc hc2

/-! ## Claims -/

/-- C1: the claim says a thunk-table read maintains a repeat counter over
recurring non-ordinal data addresses and fails with the bogus-data error as
soon as the counter reaches the ceiling of 16, so that a 20-entry table of
one repeated address fails at the 16th repeat.  The source declares the
constant maxRepeatedAddresses = 16 but never consults it: the loop compares
the repeat counter against maxAddressSpread = 0x8000000 instead.  This
theorem evaluates the reader at the failing input of the claim — 20 entries
all holding the non-ordinal address 0x1000 followed by a zero terminator —
and shows the read succeeds, returning all 20 entries instead of failing. -/
theorem C1_repeat_ceiling_not_enforced :
    getImportTable32 pe1 0 200 25 = .ok (List.replicate 20 0x1000) := by decide

/-- C2: the claim says the reader tracks the running minimum and maximum of
the non-ordinal data addresses and fails with the address-spread error when
their difference exceeds 64 MiB.  The source initialises minAddressOfData
and maxAddressOfData but never updates them, so the spread check compares
the constants 0 and 2^32 - 1 (difference 1 after uint32 wrap) and can never
fire.  This theorem evaluates the reader at the failing input of the claim —
addresses 0x1000 and 0x9000000, which differ by more than 64 MiB — and shows
the read succeeds with both entries instead of failing. -/
theorem C2_spread_check_never_fires :
    getImportTable32 pe2 0 100 5 = .ok [0x1000, 0x9000000] := by decide

/-- C3 counterexample: the claim says a table with 1001 consecutive
invalid-name entries and zero valid ones fails with the too-many-invalid
error.  The source aborts only when the check numInvalid > 1000 and
numInvalid = idx holds before counting the current entry, which first
happens at index 1001 — so a table of exactly 1001 invalid entries is
consumed completely and resolution returns an empty success. -/
theorem C3_counterexample : parseImports32 pe3 d0 4004 1010 = .ok [] := by
  have hoft : d0.OriginalFirstThunk = 0 := rfl
  have hft : d0.FirstThunk = 0 := rfl
  have hlen : (List.replicate 1001 (0x2000 : Nat)).length = 1001 := by
    rw [List.length_replicate]
  simp only [parseImports32, hoft, hft, pe3_table_4004, hlen]
  rw [if_neg (by omega)]
  rw [if_pos (by omega)]
  exact pe3_resolve_ok 1001 (by omega) 1001 1002 0 [] (by omega) (by omega)

/-- C3 amended: an entry whose name fails the validity check is replaced by
the invalid sentinel and skipped, valid entries being kept in table order;
the abort fires when an invalid entry is met at index idx with
numInvalid = idx (all entries so far invalid) and numInvalid > 1000 — that
is, at the 1002nd consecutive invalid entry.  A table of 1002 consecutive
invalid entries fails with the too-many-invalid error (first conjunct),
while a table with one invalid entry between two valid ones yields exactly
the two valid entries in order (second conjunct). -/
theorem C3_amended_theorem :
    parseImports32 pe3 d0 4008 1010 =
      .err "Too many invalid names, aborting parsing" ∧
    parseImports32 pe3m d0 100 6 =
      .ok [{ Name := "A", Hint := 0x3000, Offset := 0x3000 },
           { Name := "A", Hint := 0x3000, Offset := 0x3004, Address := 8 }] := by
  constructor
  · have hoft : d0.OriginalFirstThunk = 0 := rfl
    have hft : d0.FirstThunk = 0 := rfl
    have hlen : (List.replicate 1002 (0x2000 : Nat)).length = 1002 := by
      rw [List.length_replicate]
    simp only [parseImports32, hoft, hft, pe3_table_4008, hlen]
    rw [if_neg (by omega)]
    rw [if_pos (by omega)]
    exact pe3_resolve_err 1001 1003 0 [] (by omega) (by omega)
  · decide

/-- C4 counterexample: the claim says every out-of-bounds read is surfaced
as a typed error and the parse never reaches the out-of-range-indexing
branch.  On a 10-byte file, the very first descriptor read slices
data[0:20], whose range check fails: the parse aborts out of range instead
of returning an error value. -/
theorem C4_counterexample : parseImportDirectory pe4c 0 20 5 3 = .outOfRange := by
  decide

/-- C4 amended: a descriptor read whose slice range check fails aborts the
parse out of range rather than returning an error value (first conjunct,
for every file, rva, size and walk state); the typed descriptor error is
returned only when the slice is in bounds but shorter than the 20-byte
descriptor (second conjunct).  The thunk-read truncation error branch is
likewise unreachable: a thunk slice is either exactly 4 (or 8) bytes or out
of range. -/
theorem C4_amended_theorem :
    (∀ (pe : PEFile) (rva size fuel tableFuel : Nat) (acc : List Import),
      goSlice pe.data (pe.offsetOfRva rva % pow32)
          (add32 (pe.offsetOfRva rva % pow32) size) = none →
      parseImportDirectoryLoop pe size tableFuel (fuel + 1) rva acc = .outOfRange) ∧
    (∀ (pe : PEFile) (rva size fuel tableFuel : Nat) (acc : List Import)
       (s : List Nat),
      goSlice pe.data (pe.offsetOfRva rva % pow32)
          (add32 (pe.offsetOfRva rva % pow32) size) = some s →
      s.length < 20 →
      parseImportDirectoryLoop pe size tableFuel (fuel + 1) rva acc =
        .err "descriptor read failed") := by
  constructor
  · intro pe rva size fuel tableFuel acc h
    simp only [parseImportDirectoryLoop, readDescriptor, h]
  · intro pe rva size fuel tableFuel acc s h hs
    simp only [parseImportDirectoryLoop, readDescriptor, h]
    rw [if_pos hs]

theorem C4_amended_theorem_witness :
    (goSlice pe4c.data 0 (add32 0 20) = none ∧
      parseImportDirectoryLoop pe4c 20 3 5 0 [] = .outOfRange) ∧
    (goSlice pe4c.data 0 (add32 0 8) = some (List.replicate 8 0) ∧
      (List.replicate (8 : Nat) (0 : Nat)).length < 20 ∧
      parseImportDirectoryLoop pe4c 8 3 5 0 [] = .err "descriptor read failed") :=
  ⟨⟨by decide, C4_amended_theorem.1 pe4c 0 20 4 3 [] (by decide)⟩,
   ⟨by decide, by decide,
    C4_amended_theorem.2 pe4c 0 8 4 3 [] (List.replicate 8 0) (by decide) (by decide)⟩⟩

/-- C5 counterexample: the claim says a 64-bit ordinal-flagged entry whose
low 63 bits exceed 0xFFFF fails with the implausible-ordinal error.  The
source masks the 64-bit value with the literal 0x7fffffff — only the low 31
bits — so the entry 0x8000000100000000, whose low 63 bits are 2^32, passes
the check and the read succeeds. -/
theorem C5_counterexample :
    getImportTable64 pe5 0 100 5 = .ok [0x8000000100000000] := by decide

/-- C5 amended: in both widths the ordinal plausibility check masks the
entry with 0x7fffffff (the low 31 bits, not the low 63 bits for the 64-bit
width): an ordinal-flagged entry fails with the error exactly when its low
31 bits exceed 0xFFFF (first and second conjuncts), a 64-bit entry whose
low 31 bits are small is accepted whatever its bits 31 to 62 hold (third
conjunct), an accepted 32-bit ordinal entry is collected (fourth conjunct),
and an ordinal-flagged entry resolves to ByOrdinal with the low 16 bits as
the ordinal (fifth conjunct). -/
theorem C5_amended_theorem :
    (∀ (pe : PEFile) (v maxLen fuel : Nat), readThunk32 pe 0 = .ok v →
      v &&& imageOrdinalFlag32 > 0 → 0 < maxLen → maxLen < pow32 →
      v &&& 0x7fffffff > 0xffff →
      getImportTable32 pe 0 maxLen (fuel + 1) = .err "beyond") ∧
    (∀ (pe : PEFile) (v maxLen fuel : Nat), readThunk64 pe 0 = .ok v →
      v &&& imageOrdinalFlag64 > 0 → 0 < maxLen → maxLen < pow32 →
      v &&& 0x7fffffff > 0xffff →
      getImportTable64 pe 0 maxLen (fuel + 1) = .err "beyond") ∧
    (∀ (pe : PEFile) (v maxLen fuel : Nat), readThunk64 pe 0 = .ok v →
      readThunk64 pe 8 = .ok 0 → v &&& imageOrdinalFlag64 > 0 →
      8 < maxLen → maxLen < pow32 → ¬ v &&& 0x7fffffff > 0xffff →
      getImportTable64 pe 0 maxLen (fuel + 2) = .ok [v]) ∧
    (∀ (pe : PEFile) (v maxLen fuel : Nat), readThunk32 pe 0 = .ok v →
      readThunk32 pe 4 = .ok 0 → v &&& imageOrdinalFlag32 > 0 →
      4 < maxLen → maxLen < pow32 → ¬ v &&& 0x7fffffff > 0xffff →
      getImportTable32 pe 0 maxLen (fuel + 2) = .ok [v]) ∧
    (∀ (pe : PEFile) (d : ImageImportDescriptor) (v : Nat),
      v &&& imageOrdinalFlag32 > 0 → 0 < v &&& 0xffff →
      resolveLoop32 pe d [v] [v] [v] 2 0 0 [] =
        .ok [{ ByOrdinal := true, Ordinal := v &&& 0xffff,
               Address := add32 (add32 d.FirstThunk pe.imageBase) 0 }]) := by
  refine ⟨?_, ?_, ?_, ?_, ?_⟩
  · intro pe v maxLen fuel hr hflag hml hml32 hbig
    have h0 : add32 0 maxLen = maxLen := by
      simp [add32, Nat.mod_eq_of_lt hml32]
    have hv0 : v ≠ 0 := by
      intro h; rw [h] at hflag; simp [imageOrdinalFlag32] at hflag
    simp only [getImportTable32, importTable32Loop, h0, hr]
    rw [if_neg (by omega)]
    rw [if_neg (by decide)]
    rw [if_neg (by decide)]
    rw [if_neg hv0]
    rw [if_neg (by omega)]
    rw [if_pos hflag, if_pos hbig]
  · intro pe v maxLen fuel hr hflag hml hml32 hbig
    have h0 : add32 0 maxLen = maxLen := by
      simp [add32, Nat.mod_eq_of_lt hml32]
    have hv0 : v ≠ 0 := by
      intro h; rw [h] at hflag; simp [imageOrdinalFlag64] at hflag
    simp only [getImportTable64, importTable64Loop, h0, hr]
    rw [if_neg (by omega)]
    rw [if_neg (by decide)]
    rw [if_neg (by decide)]
    rw [if_neg hv0]
    rw [if_neg (by omega)]
    rw [if_pos hflag, if_pos hbig]
  · intro pe v maxLen fuel hr hr2 hflag hml hml32 hsmall
    have h0 : add32 0 maxLen = maxLen := by
      simp [add32, Nat.mod_eq_of_lt hml32]
    have h8 : add32 0 8 = 8 := by decide
    have hv0 : v ≠ 0 := by
      intro h; rw [h] at hflag; simp [imageOrdinalFlag64] at hflag
    simp only [getImportTable64, importTable64Loop, h0, h8, hr, hr2]
    rw [if_neg (by omega)]
    rw [if_neg (by decide)]
    rw [if_neg (by decide)]
    rw [if_neg hv0]
    rw [if_neg (by omega)]
    rw [if_pos hflag, if_neg hsmall]
    rw [if_neg (by omega)]
    rw [if_neg (by decide)]
    rw [if_neg (by decide)]
    simp
  · intro pe v maxLen fuel hr hr2 hflag hml hml32 hsmall
    have h0 : add32 0 maxLen = maxLen := by
      simp [add32, Nat.mod_eq_of_lt hml32]
    have h4 : add32 0 4 = 4 := by decide
    have hv0 : v ≠ 0 := by
      intro h; rw [h] at hflag; simp [imageOrdinalFlag32] at hflag
    simp only [getImportTable32, importTable32Loop, h0, h4, hr, hr2]
    rw [if_neg (by omega)]
    rw [if_neg (by decide)]
    rw [if_neg (by decide)]
    rw [if_neg hv0]
    rw [if_neg (by omega)]
    rw [if_pos hflag, if_neg hsmall]
    rw [if_neg (by omega)]
    rw [if_neg (by decide)]
    rw [if_neg (by decide)]
    simp
  · intro pe d v hflag hord
    have hv0 : v > 0 := by
      rcases Nat.eq_zero_or_pos v with h | h
      · rw [h] at hflag; simp [imageOrdinalFlag32] at hflag
      · exact h
    have hstep : resolveEntry32 pe v =
        .ok { ByOrdinal := true, Ordinal := v &&& 0xffff } := by
      simp only [resolveEntry32]
      rw [if_pos hv0, if_pos hflag]
    have hbnd : ∀ imp1 : ImportFunction, boundStep32 [v] [v] 0 imp1 = .ok imp1 := by
      intro imp1
      simp only [boundStep32, List.get?]
      rw [if_pos ⟨by simp, by simp⟩]
      simp
    have hno : ¬ (v &&& 0xffff = 0 ∧ ¬ 0 < ("" : String).length) := by
      rintro ⟨h1, -⟩
      omega
    simp only [resolveLoop32, List.get?, hstep, hbnd]
    rw [if_pos (by simp : (0 : Nat) < ([v] : List Nat).length)]
    rw [if_neg hno]
    rw [if_neg (by decide : ¬ ("" : String) = "*invalid*")]
    rw [if_pos (Or.inl hord)]
    simp [resolveLoop32]

theorem C5_amended_theorem_witness :
    (readThunk32 pe32a 0 = .ok 0x80010000 ∧
      getImportTable32 pe32a 0 100 5 = .err "beyond") ∧
    (readThunk64 pe64a 0 = .ok 0x8000000000010000 ∧
      getImportTable64 pe64a 0 100 5 = .err "beyond") ∧
    (readThunk64 pe5 0 = .ok 0x8000000100000000 ∧
      getImportTable64 pe5 0 100 5 = .ok [0x8000000100000000]) ∧
    (readThunk32 pe32b 0 = .ok 0x80000007 ∧
      getImportTable32 pe32b 0 100 5 = .ok [0x80000007]) ∧
    resolveLoop32 pe32b d0 [0x80000007] [0x80000007] [0x80000007] 2 0 0 [] =
      .ok [{ ByOrdinal := true, Ordinal := 7, Address := 0 }] :=
  ⟨⟨by decide, C5_amended_theorem.1 pe32a 0x80010000 100 4
      (by decide) (by decide) (by decide) (by decide) (by decide)⟩,
   ⟨by decide, C5_amended_theorem.2.1 pe64a 0x8000000000010000 100 4
      (by decide) (by decide) (by decide) (by decide) (by decide)⟩,
   ⟨by decide, C5_amended_theorem.2.2.1 pe5 0x8000000100000000 100 3
      (by decide) (by decide) (by decide) (by decide) (by decide) (by decide)⟩,
   ⟨by decide, C5_amended_theorem.2.2.2.1 pe32b 0x80000007 100 3
      (by decide) (by decide) (by decide) (by decide) (by decide) (by decide)⟩,
   C5_amended_theorem.2.2.2.2 pe32b d0 0x80000007 (by decide) (by decide)⟩

/-- C6 counterexample: the claim says parse_import_directory returns within
O(L) thunk-read iterations for any buffer of length L.  On the 28-byte file
pe6, started at rva 2 with size 20, the descriptor walk never returns: every
iteration reads the same non-terminal descriptor, successfully parses its
one-entry thunk tables, rejects the module name and continues at the next
cursor, which wraps modulo 2^32 without ever meeting a zero descriptor or a
failing read.  The helper pe6_walk proves the walk exhausts any amount of
fuel; here it is instantiated at a million iterations, far beyond any bound
proportional to L = 28. -/
theorem C6_counterexample : parseImportDirectory pe6 2 20 1000000 3 = .fuelOut := by
  have h := pe6_walk 1000000 2 [] (by norm_num)
  simpa [parseImportDirectory] using h

/-- C6 amended: the self-referential-entry behaviour the claim describes
does hold — a thunk entry whose non-ordinal data address equals the current
rva of the table being read (and hence falls within the scanned range) ends
the table with a break and no error — and each single thunk-table read is
bounded; but the descriptor walk around it has no iteration bound tied to
the file length, so parse_import_directory as a whole need not return. -/
theorem C6_amended_theorem (pe : PEFile) (rva maxLen fuel : Nat)
    (h1 : readThunk32 pe rva = .ok rva) (h2 : rva ≠ 0)
    (h3 : rva < add32 rva maxLen) :
    getImportTable32 pe rva maxLen (fuel + 1) = .ok [] := by
  simp only [getImportTable32, importTable32Loop, h1]
  rw [if_neg (by omega)]
  rw [if_neg (by decide)]
  rw [if_neg (by decide)]
  rw [if_neg h2]
  rw [if_pos ⟨le_refl rva, le_refl rva⟩]
  rfl

theorem C6_amended_theorem_witness :
    readThunk32 pe6w 8 = .ok 8 ∧ (8 : Nat) ≠ 0 ∧ 8 < add32 8 100 ∧
    getImportTable32 pe6w 8 100 6 = .ok [] :=
  ⟨by decide, by decide, by decide,
   C6_amended_theorem pe6w 8 100 5 (by decide) (by decide) (by decide)⟩

/-- C7 counterexample: the claim says the max_length bound passed to each
thunk-table read is derived per table — rest of file for a table after the
descriptor cursor, the backward distance for a table before it.  With the
cursor at 100, lookup table at 50 and address table at 200 in a 300-byte
file read from descriptor offset 80, the source computes the single bound
Max(100 - 50, 100 - 200) with wrapping uint32 subtraction, which is
4294967196 — not the 50-byte backward distance the specification derives
for the lookup table, and not the 220-byte rest of file it derives for the
address table. -/
theorem C7_counterexample :
    thunkMaxLen pe7 100 80 d7 = 4294967196 ∧
    specThunkMaxLen pe7.data.length 80 100 d7.OriginalFirstThunk = 50 ∧
    specThunkMaxLen pe7.data.length 80 100 d7.FirstThunk = 220 ∧
    thunkMaxLen pe7 100 80 d7 ≠
      specThunkMaxLen pe7.data.length 80 100 d7.OriginalFirstThunk ∧
    thunkMaxLen pe7 100 80 d7 ≠
      specThunkMaxLen pe7.data.length 80 100 d7.FirstThunk := by decide

/-- C7 amended: one shared bound is computed for both thunk-table reads: the
rest of the file from the descriptor file offset when the advanced cursor
exceeds neither table rva — in which case it agrees with the per-table
derivation of the specification for both tables — and otherwise the maximum
of the two wrapping differences cursor - lookup_rva and cursor -
address_rva, which underflows to a value near 2^32 when only one table lies
before the cursor. -/
theorem C7_amended_theorem (pe : PEFile) (cursor fo : Nat)
    (d : ImageImportDescriptor)
    (h1 : cursor ≤ d.OriginalFirstThunk) (h2 : cursor ≤ d.FirstThunk)
    (h3 : fo ≤ pe.data.length) (h4 : pe.data.length < pow32) :
    thunkMaxLen pe cursor fo d = pe.data.length - fo ∧
    thunkMaxLen pe cursor fo d =
      specThunkMaxLen pe.data.length fo cursor d.OriginalFirstThunk ∧
    thunkMaxLen pe cursor fo d =
      specThunkMaxLen pe.data.length fo cursor d.FirstThunk := by
  have hm : thunkMaxLen pe cursor fo d = pe.data.length - fo := by
    simp only [thunkMaxLen]
    rw [if_neg (by omega)]
    simp only [sub32, pow32] at *
    omega
  refine ⟨hm, ?_, ?_⟩
  · rw [hm]
    simp only [specThunkMaxLen]
    rw [if_pos (by omega)]
  · rw [hm]
    simp only [specThunkMaxLen]
    rw [if_pos (by omega)]

theorem C7_amended_theorem_witness :
    (10 : Nat) ≤ d7.OriginalFirstThunk ∧ (10 : Nat) ≤ d7.FirstThunk ∧
    thunkMaxLen pe7 10 0 d7 = 300 ∧
    thunkMaxLen pe7 10 0 d7 = specThunkMaxLen pe7.data.length 0 10 d7.OriginalFirstThunk ∧
    thunkMaxLen pe7 10 0 d7 = specThunkMaxLen pe7.data.length 0 10 d7.FirstThunk :=
  ⟨by decide, by decide,
   (C7_amended_theorem pe7 10 0 d7 (by decide) (by decide) (by decide) (by decide)).1,
   (C7_amended_theorem pe7 10 0 d7 (by decide) (by decide) (by decide) (by decide)).2.1,
   (C7_amended_theorem pe7 10 0 d7 (by decide) (by decide) (by decide) (by decide)).2.2⟩

/-- C8: an all-zero import descriptor terminates the directory walk
successfully — whenever the descriptor read at the directory rva yields the
all-zero descriptor, parse_import_directory returns the empty import list
and no error. -/
theorem C8_theorem (pe : PEFile) (rva size fuel tableFuel : Nat)
    (h : readDescriptor pe rva size = .ok zeroDescriptor) :
    parseImportDirectory pe rva size (fuel + 1) tableFuel = .ok [] := by
  simp only [parseImportDirectory, parseImportDirectoryLoop, h]
  simp

theorem C8_theorem_witness :
    readDescriptor pe8 0 20 = .ok zeroDescriptor ∧
    parseImportDirectory pe8 0 20 5 5 = .ok [] :=
  ⟨by decide, C8_theorem pe8 0 20 4 5 (by decide)⟩

/-- C9: the two thunk tables of pe9 are read independently and terminate at
different points — the lookup table holds two entries, the address table one
— and on such input the per-index bound-address comparison of the resolver
indexes the address table at index 1, past its length: the Go index
expression aborts out of range (first conjunct shows the lookup table read,
second the shorter address table read, third the out-of-range abort of the
resolution). -/
theorem C9_theorem :
    getImportTable32 pe9 0 100 5 = .ok [0x80000002, 0x80000003] ∧
    getImportTable32 pe9 12 100 5 = .ok [0x80000002] ∧
    parseImports32 pe9 d9 100 5 = .outOfRange := by decide

/-- C10: the directory size argument does not bound the walk — for every
file and walk state, a successful read of a non-terminal descriptor at any
cursor rva (in particular one at or past directory_rva + directory_size)
whose module resolves and has a valid name makes the walk continue at
rva + 20 with the module appended; no condition on rva against the
directory size is consulted.  The size argument occurs only inside
readDescriptor, as the byte length of the descriptor slice. -/
theorem C10_theorem (pe : PEFile) (size tableFuel fuel rva : Nat)
    (acc : List Import) (d : ImageImportDescriptor) (funcs : List ImportFunction)
    (hread : readDescriptor pe rva size = .ok d)
    (hnz : ¬ d = zeroDescriptor)
    (h32 : pe.Is64 = false)
    (himp : parseImports32 pe d
      (thunkMaxLen pe (add32 rva 20) (pe.offsetOfRva rva % pow32) d) tableFuel =
      .ok funcs)
    (hname : pe.isValidDosFilename (pe.stringAtRVA d.Name) = true) :
    parseImportDirectoryLoop pe size tableFuel (fuel + 1) rva acc =
      parseImportDirectoryLoop pe size tableFuel fuel (add32 rva 20)
        ({ Offset := pe.offsetOfRva rva % pow32, Name := pe.stringAtRVA d.Name,
           Functions := funcs, Descriptor := d } :: acc) := by
  simp only [parseImportDirectoryLoop, hread, h32, himp, hname]
  rw [if_neg hnz]
  simp

theorem C10_theorem_witness :
    parseImportDirectoryLoop pe10 20 5 3 20 [importA] =
      parseImportDirectoryLoop pe10 20 5 2 40 [importB, importA] ∧
    parseImportDirectory pe10 0 20 4 5 = .ok [importA, importB] ∧
    parseImportDirectory pe10 0 28 4 5 = .ok [importA, importB] ∧
    parseImportDirectory pe10 0 12 4 5 = .err "descriptor read failed" :=
  ⟨C10_theorem pe10 20 5 2 20 [importA] dB [fB]
     (by decide) (by decide) rfl (by decide) (by decide),
   by decide, by decide, by decide⟩

end PEImports
